import Mathlib

/-!
Shallow embedding of the `mcp-notes` note store (src/types.ts, src/db.ts,
src/handlers.ts) and verification of its specification.

The SQLite database is modelled as lists of rows; each SQL statement of
`NotesDB` is translated into an explicit list transformation.  Machine
integers are `Nat`; nullable columns are `Option`; fallible statements
return `Except DBError`.  JavaScript truthiness tests in the source
(`if (options.query)`, `if (options.limit)`, ...) are modelled exactly:
the empty string and the number `0` count as absent.
-/

deriving instance DecidableEq for Except

namespace McpNotes

/-- `priority TEXT CHECK(priority IN ('low','medium','high'))`. -/
inductive Priority where
  | low
  | medium
  | high
deriving DecidableEq, Repr

/-- Fields of the `searchIn` option: `('title' | 'content' | 'tags')[]`. -/
inductive SearchField where
  | title
  | content
  | tags
deriving DecidableEq, Repr

/-- `sortBy?: 'createdAt' | 'updatedAt' | 'dueDate'` of `SearchOptions`. -/
inductive SortField where
  | createdAt
  | updatedAt
  | dueDate
deriving DecidableEq, Repr

/-- `sortOrder?: 'asc' | 'desc'` of `SearchOptions`. -/
inductive SortOrder where
  | asc
  | desc
deriving DecidableEq, Repr

/-- A row of the `notes` table (interface `Note` without the hydrated
`tags` field, which is not a column). -/
structure Note where
  id : Nat
  title : String
  content : String
  folder : Option String
  priority : Option Priority
  dueDate : Option String
  createdAt : String
  updatedAt : String
deriving DecidableEq, Repr

/-- A row of the `tags` table. -/
structure Tag where
  id : Nat
  name : String
  noteId : Nat
deriving DecidableEq, Repr

/-- A row of the `folders` table. -/
structure Folder where
  id : Nat
  name : String
  createdAt : String
deriving DecidableEq, Repr

/-- The SQLite database state: the three tables plus the AUTOINCREMENT
counters that generate fresh row ids. -/
structure DB where
  notes : List Note
  tags : List Tag
  folders : List Folder
  nextNoteId : Nat
  nextTagId : Nat
  nextFolderId : Nat
deriving DecidableEq, Repr

/-- The freshly initialised database: three empty tables. -/
def DB.empty : DB := ⟨[], [], [], 1, 1, 1⟩

/-- Errors raised by the storage engine.  `uniqueConstraint detail`
models an error whose message contains `UNIQUE constraint failed`;
`foreignKey` a FOREIGN KEY violation; `sqlSyntax` a statement that
fails to prepare; `bindError` the TypeError/RangeError better-sqlite3
throws when a named parameter is bound to JavaScript `undefined` —
raised while binding, before the statement executes, so the store is
never touched. -/
inductive DBError where
  | uniqueConstraint (detail : String)
  | foreignKey
  | sqlSyntax
  | bindError
deriving DecidableEq, Repr

/-- Models the handler-side test
`err.message.includes('UNIQUE constraint failed')`. -/
def DBError.isUniqueViolation : DBError → Bool
  | .uniqueConstraint _ => true
  | _ => false

/-- Errors thrown by `NotesHandlers` (`McpError` codes, plus a passed
through storage error for the `throw err` branches). -/
inductive McpErr where
  | invalidParams (msg : String)
  | internalError (msg : String)
  | dbError (e : DBError)
deriving DecidableEq, Repr

/-- SQLite `LIKE` matching on character lists, ASCII case-insensitive
(SQLite's default `LIKE` folds only A-Z): `%` matches any run of
characters, `_` any single character. -/
def likeMatch : List Char → List Char → Bool
  | [], [] => true
  | [], _ :: _ => false
  | '%' :: ps, s => (s.tails).any fun t => likeMatch ps t
  | '_' :: ps, _ :: s => likeMatch ps s
  | '_' :: _, [] => false
  | p :: ps, c :: s => (p.toLower == c.toLower) && likeMatch ps s
  | _ :: _, [] => false

/-- `column LIKE '%query%'` as built by `searchNotes`
(`params.push('%' + query + '%')`). -/
def sqlLike (s q : String) : Bool :=
  likeMatch ('%' :: (q.data ++ ['%'])) s.data

/-- SQLite BINARY collation on TEXT: lexicographic comparison of the
stored bytes, which for UTF-8 agrees with codepoint-wise comparison. -/
def charsLe : List Char → List Char → Bool
  | [], _ => true
  | _ :: _, [] => false
  | a :: as, b :: bs =>
    if a.toNat < b.toNat then true
    else if b.toNat < a.toNat then false
    else charsLe as bs

/-- The comparison realising `ORDER BY n.updatedAt DESC`. -/
def updatedAtDesc (a b : Note) : Prop :=
  charsLe b.updatedAt.data a.updatedAt.data = true

instance : DecidableRel updatedAtDesc := fun _ _ =>
  inferInstanceAs (Decidable (_ = true))

/-- The `Omit<Note, 'id'>` object handed to `createNote`.  The handler
builds it as `folder: args.folder, priority: ..., dueDate: ...`, so in
the optional fields `none` is JavaScript `undefined` (the tool argument
was not supplied), not SQL NULL: better-sqlite3 refuses to bind
`undefined` named-parameter values.  `title`, `content` and the two
timestamps are always strings on this path. -/
structure NoteFields where
  title : String
  content : String
  folder : Option String
  priority : Option Priority
  dueDate : Option String
  createdAt : String
  updatedAt : String
deriving DecidableEq, Repr

/-- `SELECT name FROM tags WHERE noteId = ?` mapped to the names
(`NotesDB.getNoteTags`). -/
def DB.getNoteTags (db : DB) (noteId : Nat) : List String :=
  (db.tags.filter fun t => t.noteId == noteId).map fun t => t.name

/-- `INSERT INTO notes ...` (`NotesDB.createNote`).  `stmt.run(note)`
first binds the seven named parameters: an `undefined` value among
`@folder`, `@priority`, `@dueDate` makes better-sqlite3 throw a bind
error before the INSERT executes, preempting every table constraint.
Once bound, the UNIQUE constraint on `title` rejects a duplicate title
atomically — on failure no row is written; on success the row is
appended and the generated rowid is returned on the note. -/
def DB.createNote (db : DB) (f : NoteFields) : Except DBError Note × DB :=
  if f.folder.isNone || f.priority.isNone || f.dueDate.isNone then
    (.error .bindError, db)
  else if db.notes.any (fun n => n.title == f.title) then
    (.error (.uniqueConstraint "UNIQUE constraint failed: notes.title"), db)
  else
    let note : Note :=
      { id := db.nextNoteId, title := f.title, content := f.content,
        folder := f.folder, priority := f.priority, dueDate := f.dueDate,
        createdAt := f.createdAt, updatedAt := f.updatedAt }
    (.ok note, { db with notes := db.notes ++ [note],
                         nextNoteId := db.nextNoteId + 1 })

/-- `SELECT * FROM notes WHERE id = ?` + tag hydration
(`NotesDB.getNote`). -/
def DB.getNote (db : DB) (id : Nat) : Option (Note × List String) :=
  (db.notes.find? fun n => n.id == id).map fun n => (n, db.getNoteTags n.id)

/-- `SELECT * FROM notes WHERE title = ?` + tag hydration
(`NotesDB.getNoteByTitle`). -/
def DB.getNoteByTitle (db : DB) (title : String) : Option (Note × List String) :=
  (db.notes.find? fun n => n.title == title).map fun n => (n, db.getNoteTags n.id)

/-- `Partial<Note>` as accepted by `NotesDB.updateNote`, after the
source's filter that drops the `id` and `tags` keys: every remaining
column may or may not be present. -/
structure NoteUpdates where
  title : Option String := none
  content : Option String := none
  folder : Option String := none
  priority : Option Priority := none
  dueDate : Option String := none
  createdAt : Option String := none
  updatedAt : Option String := none
deriving DecidableEq, Repr

/-- One `SET key = @key` assignment per present key. -/
def applyUpdates (n : Note) (u : NoteUpdates) : Note :=
  { n with
    title := u.title.getD n.title
    content := u.content.getD n.content
    folder := match u.folder with | some f => some f | none => n.folder
    priority := match u.priority with | some p => some p | none => n.priority
    dueDate := match u.dueDate with | some d => some d | none => n.dueDate
    createdAt := u.createdAt.getD n.createdAt
    updatedAt := u.updatedAt.getD n.updatedAt }

/-- `UPDATE notes SET ... WHERE id = @id` (`NotesDB.updateNote`);
`result.changes > 0` is true exactly when a row matched the WHERE. -/
def DB.updateNote (db : DB) (id : Nat) (u : NoteUpdates) : Bool × DB :=
  (db.notes.any (fun n => n.id == id),
   { db with notes := db.notes.map fun n => if n.id == id then applyUpdates n u else n })

/-- `DELETE FROM notes WHERE id = ?` (`NotesDB.deleteNote`); with
`PRAGMA foreign_keys = ON` the `ON DELETE CASCADE` clause of the `tags`
table removes every tag row of the deleted note in the same statement. -/
def DB.deleteNote (db : DB) (id : Nat) : Bool × DB :=
  (db.notes.any (fun n => n.id == id),
   { db with notes := db.notes.filter fun n => !(n.id == id),
             tags := db.tags.filter fun t => !(t.noteId == id) })

/-- `INSERT OR IGNORE INTO tags (name, noteId)` (`NotesDB.addTag`):
the UNIQUE(name,noteId) conflict is ignored, but a FOREIGN KEY
violation (no note with this id) is still an error — SQLite's ON
CONFLICT clause does not apply to foreign keys. -/
def DB.addTag (db : DB) (noteId : Nat) (name : String) : Except DBError Unit × DB :=
  if !(db.notes.any fun n => n.id == noteId) then
    (.error .foreignKey, db)
  else if db.tags.any (fun t => t.name == name && t.noteId == noteId) then
    (.ok (), db)
  else
    (.ok (), { db with tags := db.tags ++ [⟨db.nextTagId, name, noteId⟩],
                       nextTagId := db.nextTagId + 1 })

/-- `DELETE FROM tags WHERE noteId = ? AND name IN (...)`
(`NotesDB.removeTags`); with an empty name list SQLite's empty `IN ()`
list matches nothing and the statement deletes no row. -/
def DB.removeTags (db : DB) (noteId : Nat) (names : List String) : DB :=
  { db with tags := db.tags.filter fun t => !(t.noteId == noteId && names.contains t.name) }

/-- `INSERT INTO folders (name, createdAt)` (`NotesDB.createFolder`)
with the UNIQUE constraint on `name`. -/
def DB.createFolder (db : DB) (name now : String) : Except DBError Folder × DB :=
  if db.folders.any (fun f => f.name == name) then
    (.error (.uniqueConstraint "UNIQUE constraint failed: folders.name"), db)
  else
    (.ok ⟨db.nextFolderId, name, now⟩,
     { db with folders := db.folders ++ [⟨db.nextFolderId, name, now⟩],
               nextFolderId := db.nextFolderId + 1 })

/-- The `SearchOptions` interface of src/types.ts.  `NotesDB.searchNotes`
receives the whole structure (the handler forwards it unchanged) even
though its own parameter type omits `hasDueDate`, `sortBy` and
`sortOrder`. -/
structure SearchOptions where
  query : String
  searchIn : Option (List SearchField) := none
  folder : Option String := none
  priority : Option Priority := none
  hasDueDate : Option Bool := none
  sortBy : Option SortField := none
  sortOrder : Option SortOrder := none
  limit : Option Nat := none
  offset : Option Nat := none
deriving DecidableEq, Repr

/-- `options.searchIn?.includes('tags')` — the join is added only when
`searchIn` is supplied and contains `tags`. -/
def joinTags (opts : SearchOptions) : Bool :=
  match opts.searchIn with
  | some fs => fs.contains .tags
  | none => false

/-- `options.searchIn || ['title', 'content']` — JavaScript `||`
replaces only an absent array (an empty array is truthy). -/
def textFields (opts : SearchOptions) : List SearchField :=
  match opts.searchIn with
  | some fs => fs
  | none => [.title, .content]

/-- The rows of `notes n LEFT JOIN tags t ON n.id = t.noteId` for one
note: one row per tag, or a single row with NULL tag columns when the
note has no tags. -/
def DB.rowsFor (db : DB) (n : Note) : List (Note × Option Tag) :=
  match db.tags.filter (fun t => t.noteId == n.id) with
  | [] => [(n, none)]
  | ts => ts.map fun t => (n, some t)

/-- The FROM clause: joined rows when the tag join is active, otherwise
the bare `notes` table (tag columns all NULL). -/
def DB.fromRows (db : DB) (opts : SearchOptions) : List (Note × Option Tag) :=
  if joinTags opts then
    db.notes.flatMap db.rowsFor
  else
    db.notes.map fun n => (n, none)

/-- One `field LIKE ?` disjunct; on a left-join row without a tag,
`t.name` is NULL and `NULL LIKE ?` is not true. -/
def fieldMatches (q : String) : SearchField → Note × Option Tag → Bool
  | .title, (n, _) => sqlLike n.title q
  | .content, (n, _) => sqlLike n.content q
  | .tags, (_, some t) => sqlLike t.name q
  | .tags, (_, none) => false

/-- The `n.folder = ?` and `n.priority = ?` conjuncts; each is added
only when the option is truthy (`if (options.folder)`,
`if (options.priority)`), so an empty folder string adds no filter. -/
def folderPriorityCond (opts : SearchOptions) (n : Note) : Bool :=
  (match opts.folder with
   | some f => if f == "" then true else n.folder == some f
   | none => true) &&
  (match opts.priority with
   | some p => n.priority == some p
   | none => true)

/-- The full WHERE predicate on a joined row: the text disjunction is
added only when `options.query` is truthy (non-empty). -/
def rowWhere (opts : SearchOptions) (r : Note × Option Tag) : Bool :=
  (if opts.query == "" then true
   else (textFields opts).any fun fl => fieldMatches opts.query fl r) &&
  folderPriorityCond opts r.1

/-- `LIMIT ? [OFFSET ?]`: the LIMIT clause is added only for a truthy
(non-zero) limit, and the OFFSET clause only inside it for a truthy
offset — matching the nested `if (options.limit) { ... if
(options.offset) ... }` of the source. -/
def paginate (limit offset : Option Nat) (l : List Note) : List Note :=
  match limit with
  | some k =>
    if k == 0 then l
    else
      match offset with
      | some o => if o == 0 then l.take k else (l.drop o).take k
      | none => l.take k
  | none => l

/-- `SELECT DISTINCT n.* FROM ... WHERE ... ORDER BY n.updatedAt DESC`
— the matching note rows, deduplicated, sorted, before the LIMIT/OFFSET
window.  Preparing the statement fails when a non-empty query meets an
empty `searchIn` list: the built text condition `()` is not valid SQL. -/
def DB.searchCore (db : DB) (opts : SearchOptions) : Except DBError (List Note) :=
  if !(opts.query == "") && (textFields opts).isEmpty then
    .error .sqlSyntax
  else
    .ok (List.insertionSort updatedAtDesc
      (((db.fromRows opts).filter (rowWhere opts)).map Prod.fst).dedup)

/-- The final `notes.map(note => ({...note, tags: getNoteTags(note.id)}))`. -/
def DB.hydrate (db : DB) (l : List Note) : List (Note × List String) :=
  l.map fun n => (n, db.getNoteTags n.id)

/-- `NotesDB.searchNotes`: core query, pagination window, then tag
hydration of the returned page. -/
def DB.searchNotes (db : DB) (opts : SearchOptions) :
    Except DBError (List (Note × List String)) :=
  (db.searchCore opts).map fun l => db.hydrate (paginate opts.limit opts.offset l)

/-! ### The handlers of src/handlers.ts

Each handler is modelled as a function of the current database state
(plus the clock reading `now` where the source calls
`new Date().toISOString()`); it returns the successor state in
`Except McpErr`.  The formatted response text the source produces is not
modelled: the claims are about state and errors. -/

namespace NotesHandlers

/-- `create_note` arguments (priority already boundary-validated to the
enum, as the tool schema enforces). -/
structure CreateNoteArgs where
  title : String
  content : String
  folder : Option String := none
  priority : Option Priority := none
  dueDate : Option String := none
deriving DecidableEq, Repr

/-- `NotesHandlers.createNote`: stamps both timestamps with one clock
reading, inserts, and maps a caught `UNIQUE constraint failed` error to
the user-facing `InvalidParams` rejection (all other errors are
rethrown). -/
def createNote (db : DB) (args : CreateNoteArgs) (now : String) : Except McpErr DB :=
  match db.createNote
      { title := args.title, content := args.content, folder := args.folder,
        priority := args.priority, dueDate := args.dueDate,
        createdAt := now, updatedAt := now } with
  | (.ok _, db') => .ok db'
  | (.error e, _) =>
    if e.isUniqueViolation then .error (.invalidParams "笔记标题已存在")
    else .error (.dbError e)

/-- `get_notes` arguments. -/
structure GetNotesArgs where
  folder : Option String := none
  limit : Option Nat := none
  offset : Option Nat := none
deriving DecidableEq, Repr

/-- `NotesHandlers.getNotes`: the listing path delegates to
`searchNotes` with an empty query and no `searchIn`. -/
def getNotes (db : DB) (args : GetNotesArgs) :
    Except DBError (List (Note × List String)) :=
  db.searchNotes
    { query := "", folder := args.folder, limit := args.limit, offset := args.offset }

/-- `update_note` arguments: `title` selects the note, the optional
fields are the payload. -/
structure UpdateNoteArgs where
  title : String
  content : Option String := none
  folder : Option String := none
  priority : Option Priority := none
  dueDate : Option String := none
deriving DecidableEq, Repr

/-- The `updates` object the handler builds: `updatedAt` always, each
payload field only when it was supplied (`!== undefined`). -/
def handlerUpdates (args : UpdateNoteArgs) (now : String) : NoteUpdates :=
  { updatedAt := some now, content := args.content, folder := args.folder,
    priority := args.priority, dueDate := args.dueDate }

/-- `NotesHandlers.updateNote`: look the note up by title (absence is a
user error), then a partial UPDATE keyed by its id. -/
def updateNote (db : DB) (args : UpdateNoteArgs) (now : String) : Except McpErr DB :=
  match db.getNoteByTitle args.title with
  | none => .error (.invalidParams "未找到笔记")
  | some (note, _) =>
    match db.updateNote note.id (handlerUpdates args now) with
    | (true, db') => .ok db'
    | (false, _) => .error (.internalError "更新笔记失败")

/-- `NotesHandlers.deleteNote`. -/
def deleteNote (db : DB) (title : String) : Except McpErr DB :=
  match db.getNoteByTitle title with
  | none => .error (.invalidParams "未找到笔记")
  | some (note, _) =>
    match db.deleteNote note.id with
    | (true, db') => .ok db'
    | (false, _) => .error (.internalError "删除笔记失败")

/-- `NotesHandlers.searchNotes` forwards the whole `SearchOptions`
structure to the repository unchanged. -/
def searchNotes (db : DB) (args : SearchOptions) :
    Except DBError (List (Note × List String)) :=
  db.searchNotes args

/-- `NotesHandlers.addTags`: look the note up by title, then one
idempotent insert per supplied tag name. -/
def addTags (db : DB) (title : String) (tagList : List String) : Except McpErr DB :=
  match db.getNoteByTitle title with
  | none => .error (.invalidParams "未找到笔记")
  | some (note, _) =>
    .ok (tagList.foldl (fun acc tg => (acc.addTag note.id tg).2) db)

/-- `NotesHandlers.removeTags`: look the note up by title, then a single
DELETE over the supplied names. -/
def removeTags (db : DB) (title : String) (tagList : List String) : Except McpErr DB :=
  match db.getNoteByTitle title with
  | none => .error (.invalidParams "未找到笔记")
  | some (note, _) => .ok (db.removeTags note.id tagList)

end NotesHandlers

/-! ### Reachable states

Every mutation the tool surface can perform on the store, and the states
reachable from the empty database by running them. -/

/-- One repository mutation. -/
inductive Op where
  | create (f : NoteFields)
  | update (id : Nat) (u : NoteUpdates)
  | delete (id : Nat)
  | addTag (noteId : Nat) (name : String)
  | removeTags (noteId : Nat) (names : List String)
  | createFolder (name now : String)
deriving Repr

/-- Run one mutation; a failed statement leaves the state unchanged. -/
def applyOp (db : DB) : Op → DB
  | .create f => (db.createNote f).2
  | .update id u => (db.updateNote id u).2
  | .delete id => (db.deleteNote id).2
  | .addTag noteId name => (db.addTag noteId name).2
  | .removeTags noteId names => db.removeTags noteId names
  | .createFolder name now => (db.createFolder name now).2

/-- States reachable from the freshly initialised store. -/
def Reachable (db : DB) : Prop :=
  ∃ ops : List Op, db = ops.foldl applyOp DB.empty

/-- Referential integrity of the tag table: every tag row points at an
existing note row. -/
def NoOrphanTags (db : DB) : Prop :=
  ∀ t ∈ db.tags, ∃ n ∈ db.notes, n.id = t.noteId

/-! ## Theorems -/

/-- Claim C10: two search requests that differ only in `hasDueDate`
produce the same result sequence — the option is declared on
`SearchOptions` but never read by `NotesDB.searchNotes`. -/
theorem searchNotes_ignores_hasDueDate (db : DB) (o : SearchOptions)
    (b b' : Option Bool) :
    db.searchNotes { o with hasDueDate := b }
      = db.searchNotes { o with hasDueDate := b' } := by
  cases o
  rfl

/-- Note used for the sort-order and pagination scenarios: created
2024-01-05, last updated 2024-01-10. -/
def sortNoteA : Note := ⟨1, "A", "a", none, none, none, "2024-01-05", "2024-01-10"⟩

/-- Note created 2024-01-01 and never touched since. -/
def sortNoteB : Note := ⟨2, "B", "b", none, none, none, "2024-01-01", "2024-01-01"⟩

/-- A store holding `sortNoteB` and `sortNoteA`. -/
def sortDB : DB := ⟨[sortNoteB, sortNoteA], [], [], 3, 1, 1⟩

/-- A request for createdAt-ascending order. -/
def sortOpts : SearchOptions :=
  { query := "", sortBy := some .createdAt, sortOrder := some .asc }

/-- Claim C1, evaluated at the failing input: a search requesting
`sortBy = createdAt, sortOrder = asc` still returns the notes in
updatedAt-descending order — `sortNoteA` first — although
`sortNoteB.createdAt` strictly precedes `sortNoteA.createdAt`, so the
requested ascending createdAt order would put `sortNoteB` first.
`NotesDB.searchNotes` hard-codes `ORDER BY n.updatedAt DESC` and its
parameter type omits `sortBy`/`sortOrder`, contradicting the
`SearchOptions` interface and the `search_notes` tool schema. -/
theorem searchNotes_sort_request_ignored :
    sortDB.searchNotes sortOpts = .ok [(sortNoteA, []), (sortNoteB, [])] ∧
    charsLe sortNoteB.createdAt.data sortNoteA.createdAt.data = true ∧
    sortNoteB.createdAt ≠ sortNoteA.createdAt := by
  refine ⟨by decide, by decide, by decide⟩

/-- Claim C2, evaluated at the failing input.  The store already holds
a note titled "A".  `create_note {title: "A", content}` with the
schema-optional folder/priority/dueDate absent makes the handler bind
`undefined` values, so `stmt.run` throws a bind error before the UNIQUE
check; the catch's `includes('UNIQUE constraint failed')` test is false
and the error is rethrown instead of the claimed user-facing
`InvalidParams` rejection (the store does stay unchanged).  The same
duplicate title with all optional fields supplied behaves exactly as
the claim says — the code's own catch block implements that mapping —
showing the bind failure is a slip that contradicts the tool schema's
`required: ['title', 'content']`. -/
theorem createNote_duplicate_bind_error_preempts :
    (sortDB.createNote ⟨"A", "other content", none, none, none, "t0", "t0"⟩).1
      = .error .bindError ∧
    (sortDB.createNote ⟨"A", "other content", none, none, none, "t0", "t0"⟩).2
      = sortDB ∧
    NotesHandlers.createNote sortDB ⟨"A", "other content", none, none, none⟩ "t0"
      = .error (.dbError .bindError) ∧
    (sortDB.createNote ⟨"A", "other content", some "home", some .low,
        some "2024-05-01", "t0", "t0"⟩).1
      = .error (.uniqueConstraint "UNIQUE constraint failed: notes.title") ∧
    (sortDB.createNote ⟨"A", "other content", some "home", some .low,
        some "2024-05-01", "t0", "t0"⟩).2 = sortDB ∧
    NotesHandlers.createNote sortDB
        ⟨"A", "other content", some "home", some .low, some "2024-05-01"⟩ "t0"
      = .error (.invalidParams "笔记标题已存在") := by
  refine ⟨by decide, by decide, by decide, by decide, by decide, by decide⟩

/-- A one-note store for the limit-zero counterexample. -/
def cexNote : Note := ⟨1, "t", "c", none, none, none, "2024-01-01", "2024-01-01"⟩

/-- Store holding only `cexNote`. -/
def cexDB : DB := ⟨[cexNote], [], [], 2, 1, 1⟩

/-- Claim C4, refuted at `limit = some 0`: the limit is supplied, yet
the whole matching set (one note) is returned — `if (options.limit)`
treats the falsy value `0` as absent, so a supplied limit of `0` does
not bound the result count. -/
theorem searchNotes_limit_zero_unbounded :
    cexDB.searchNotes { query := "", limit := some 0 } = .ok [(cexNote, [])] ∧
    ¬ ([(cexNote, ([] : List String))].length ≤ 0) := by
  refine ⟨by decide, by decide⟩

/-- Claim C4 as amended: an offset without a limit (or with the falsy
limit `0`) is a no-op and the full matching set is returned; a non-zero
limit bounds the result count and, together with the offset (absent and
`0` both mean "from the start"), selects the window within the sorted,
deduplicated sequence `l` computed before pagination. -/
theorem searchNotes_pagination_window (db : DB) (opts : SearchOptions)
    (l : List Note) (h : db.searchCore opts = .ok l) :
    ((opts.limit = none ∨ opts.limit = some 0) →
      db.searchNotes opts = .ok (db.hydrate l)) ∧
    (∀ k, opts.limit = some k → k ≠ 0 →
      db.searchNotes opts = .ok (db.hydrate ((l.drop (opts.offset.getD 0)).take k))) := by
  constructor
  · rintro (hl | hl) <;> simp [DB.searchNotes, h, paginate, hl, Except.map]
  · intro k hk hk0
    have hkb : (k == 0) = false := by simpa using hk0
    cases ho : opts.offset with
    | none => simp [DB.searchNotes, h, paginate, hk, hkb, ho, Except.map]
    | some o =>
      by_cases ho0 : o = 0
      · simp [DB.searchNotes, h, paginate, hk, hkb, ho, ho0, Except.map]
      · simp [DB.searchNotes, h, paginate, hk, hkb, ho, ho0, Except.map]

/-- Witness for `searchNotes_pagination_window`: on the two-note store,
`limit = 1, offset = 1` returns the second page of the
updatedAt-descending sequence. -/
theorem searchNotes_pagination_window_witness :
    sortDB.searchNotes { query := "", limit := some 1, offset := some 1 }
      = .ok (sortDB.hydrate (([sortNoteA, sortNoteB].drop 1).take 1)) :=
  (searchNotes_pagination_window sortDB
    { query := "", limit := some 1, offset := some 1 }
    [sortNoteA, sortNoteB] (by decide)).2 1 rfl (by decide)

/-- updateNote never writes the `id` column: the source filters the
`id` key out of the SET list. -/
theorem applyUpdates_id (n : Note) (u : NoteUpdates) : (applyUpdates n u).id = n.id :=
  rfl

/-- One repository mutation keeps the tag table free of orphans. -/
theorem applyOp_noOrphanTags (db : DB) (op : Op) (h : NoOrphanTags db) :
    NoOrphanTags (applyOp db op) := by
  cases op with
  | create f =>
    by_cases hb : (f.folder.isNone || f.priority.isNone || f.dueDate.isNone) = true
    · simpa [applyOp, DB.createNote, hb] using h
    · have hb' : (f.folder.isNone || f.priority.isNone || f.dueDate.isNone) = false :=
        Bool.eq_false_iff.2 hb
      by_cases hd : (db.notes.any fun n => n.title == f.title) = true
      · simpa [applyOp, DB.createNote, hb', hd] using h
      · intro t ht
        have hd' : (db.notes.any fun n => n.title == f.title) = false := by
          simpa using hd
        simp only [applyOp, DB.createNote, hb', hd', Bool.false_eq_true,
          if_false] at ht ⊢
        obtain ⟨n, hn, hid⟩ := h t ht
        exact ⟨n, List.mem_append_left _ hn, hid⟩
  | update id u =>
    intro t ht
    simp only [applyOp, DB.updateNote] at ht ⊢
    obtain ⟨n, hn, hid⟩ := h t ht
    refine ⟨_, List.mem_map_of_mem (fun m => if m.id == id then applyUpdates m u else m) hn, ?_⟩
    dsimp only
    split
    · rw [applyUpdates_id]; exact hid
    · exact hid
  | delete id =>
    intro t ht
    simp only [applyOp, DB.deleteNote, List.mem_filter] at ht ⊢
    obtain ⟨htm, hkeep⟩ := ht
    obtain ⟨n, hn, hid⟩ := h t htm
    exact ⟨n, ⟨hn, by simpa [hid] using hkeep⟩, hid⟩
  | addTag noteId name =>
    by_cases hex : (db.notes.any fun n => n.id == noteId) = true
    · by_cases hpair : (db.tags.any fun t => t.name == name && t.noteId == noteId) = true
      · simpa [applyOp, DB.addTag, hex, hpair] using h
      · have hpair' : (db.tags.any fun t => t.name == name && t.noteId == noteId) = false := by
          simpa using hpair
        intro t ht
        simp only [applyOp, DB.addTag, hex, hpair', Bool.not_true, Bool.false_eq_true,
          if_false, Bool.not_false, if_true, List.mem_append, List.mem_singleton] at ht ⊢
        rcases ht with ht | ht
        · obtain ⟨n, hn, hid⟩ := h t ht
          exact ⟨n, hn, hid⟩
        · subst ht
          obtain ⟨n, hn, hq⟩ := List.any_eq_true.1 hex
          exact ⟨n, hn, by simpa using hq⟩
    · have hex' : (db.notes.any fun n => n.id == noteId) = false := by simpa using hex
      simpa [applyOp, DB.addTag, hex'] using h
  | removeTags noteId names =>
    intro t ht
    simp only [applyOp, DB.removeTags, List.mem_filter] at ht
    exact h t ht.1
  | createFolder name now =>
    by_cases hd : (db.folders.any fun f => f.name == name) = true
    · simpa [applyOp, DB.createFolder, hd] using h
    · have hd' : (db.folders.any fun f => f.name == name) = false := by simpa using hd
      intro t ht
      simp only [applyOp, DB.createFolder, hd', Bool.false_eq_true, if_false] at ht ⊢
      exact h t ht

/-- Running any sequence of mutations preserves tag integrity. -/
theorem foldl_noOrphanTags (ops : List Op) :
    ∀ db : DB, NoOrphanTags db → NoOrphanTags (ops.foldl applyOp db) := by
  induction ops with
  | nil => exact fun db h => h
  | cons op rest ih => exact fun db h => ih _ (applyOp_noOrphanTags db op h)

/-- Every reachable store keeps referential integrity of tags. -/
theorem reachable_noOrphanTags (db : DB) (h : Reachable db) : NoOrphanTags db := by
  obtain ⟨ops, rfl⟩ := h
  exact foldl_noOrphanTags ops DB.empty (by intro t ht; simp [DB.empty] at ht)

/-- Claim C6: `deleteNote` removes the note row and exactly the tag
rows owned by the deleted id (all N of them), a subsequent tag lookup
for that id returns the empty set, and no reachable store contains a
tag row whose noteId does not reference an existing note. -/
theorem deleteNote_cascade_and_no_orphans (db : DB) (id : Nat) :
    ((db.deleteNote id).2.notes = db.notes.filter fun n => !(n.id == id)) ∧
    ((db.deleteNote id).2.tags = db.tags.filter fun t => !(t.noteId == id)) ∧
    ((db.deleteNote id).2.getNoteTags id = []) ∧
    (∀ db', Reachable db' → NoOrphanTags db') := by
  refine ⟨rfl, rfl, ?_, fun db' h => reachable_noOrphanTags db' h⟩
  simp only [DB.deleteNote, DB.getNoteTags]
  rw [List.map_eq_nil_iff, List.filter_eq_nil_iff]
  intro t ht
  simp only [List.mem_filter, Bool.not_eq_eq_eq_not, Bool.not_true] at ht
  simp [ht.2]

/-- Mutation trace creating one note (all optional fields supplied, so
the insert binds and succeeds) that then receives two tags. -/
def c6ops : List Op :=
  [.create ⟨"A", "c", some "home", some .low, some "2024-07-01", "t1", "t1"⟩,
   .addTag 1 "x", .addTag 1 "y"]

/-- The store reached by `c6ops`. -/
def c6db : DB := c6ops.foldl applyOp DB.empty

/-- Witness for `deleteNote_cascade_and_no_orphans` on the concrete
two-tag store: the cascade empties the tag lookup, and the tag row
`(1, "x", 1)` of the reachable store does reference a stored note. -/
theorem deleteNote_cascade_and_no_orphans_witness :
    ((c6db.deleteNote 1).2.getNoteTags 1 = []) ∧
    (∃ n ∈ c6db.notes, n.id = (Tag.mk 1 "x" 1).noteId) :=
  ⟨(deleteNote_cascade_and_no_orphans c6db 1).2.2.1,
   (deleteNote_cascade_and_no_orphans c6db 1).2.2.2 c6db ⟨c6ops, rfl⟩
     ⟨1, "x", 1⟩ (by decide)⟩

/-- Claim C9: for an existing note, `removeTags` succeeds for every
supplied name list — the empty list included — and deletes exactly the
tag rows of that note whose names appear in the list; names not
attached to the note are silently ignored (the filter simply keeps
nothing else out), and no other table is touched. -/
theorem removeTags_exact_deletion (db : DB) (title : String) (names : List String)
    (n : Note) (ts : List String) (h : db.getNoteByTitle title = some (n, ts)) :
    NotesHandlers.removeTags db title names = .ok (db.removeTags n.id names) ∧
    (db.removeTags n.id names).tags
      = db.tags.filter (fun t => !(t.noteId == n.id && names.contains t.name)) ∧
    (db.removeTags n.id names).notes = db.notes ∧
    (db.removeTags n.id names).folders = db.folders ∧
    db.removeTags n.id [] = db := by
  refine ⟨?_, rfl, rfl, rfl, ?_⟩
  · simp [NotesHandlers.removeTags, h]
  · simp [DB.removeTags]

/-- Store with one note "A" (id 1) tagged "x", used by the update and
tag-removal witnesses. -/
def c9db : DB :=
  ⟨[⟨1, "A", "c", some "home", some .low, some "2024-06-01", "t1", "t1"⟩],
   [⟨1, "x", 1⟩], [], 2, 2, 1⟩

/-- Witness for `removeTags_exact_deletion`: removing `["x", "zz"]`
(one attached name, one absent name) from note "A" succeeds and leaves
exactly the non-matching tag rows. -/
theorem removeTags_exact_deletion_witness :
    NotesHandlers.removeTags c9db "A" ["x", "zz"]
      = .ok (c9db.removeTags 1 ["x", "zz"]) ∧
    (c9db.removeTags 1 ["x", "zz"]).tags
      = c9db.tags.filter (fun t => !(t.noteId == 1 && ["x", "zz"].contains t.name)) ∧
    (c9db.removeTags 1 ["x", "zz"]).notes = c9db.notes ∧
    (c9db.removeTags 1 ["x", "zz"]).folders = c9db.folders ∧
    c9db.removeTags 1 [] = c9db :=
  removeTags_exact_deletion c9db "A" ["x", "zz"]
    ⟨1, "A", "c", some "home", some .low, some "2024-06-01", "t1", "t1"⟩ ["x"]
    (by decide)

/-- Claim C7: updating an existing note overwrites only the supplied
fields.  The tag table (and every other table) is untouched, the
updated row keeps its id, title and createdAt, each of content, folder,
priority and dueDate keeps its previous value unless supplied, and
updatedAt is refreshed to the handler's clock reading on every update. -/
theorem updateNote_partial_frame (db : DB) (args : NotesHandlers.UpdateNoteArgs)
    (now : String) (n : Note) (ts : List String)
    (h : db.getNoteByTitle args.title = some (n, ts)) :
    ∃ db', NotesHandlers.updateNote db args now = .ok db' ∧
      db'.tags = db.tags ∧ db'.folders = db.folders ∧
      db'.notes = db.notes.map fun m =>
        if m.id == n.id then
          { m with
            content := args.content.getD m.content
            folder := match args.folder with | some f => some f | none => m.folder
            priority := match args.priority with | some p => some p | none => m.priority
            dueDate := match args.dueDate with | some d => some d | none => m.dueDate
            updatedAt := now }
        else m := by
  have hf : db.notes.find? (fun x => x.title == args.title) = some n := by
    unfold DB.getNoteByTitle at h
    cases hfe : db.notes.find? (fun x => x.title == args.title) with
    | none => rw [hfe] at h; simp at h
    | some m =>
      rw [hfe] at h
      simp only [Option.map_some', Option.some.injEq, Prod.mk.injEq] at h
      rw [h.1]
  have hmem : n ∈ db.notes := List.mem_of_find?_eq_some hf
  have hsucc : (db.notes.any fun m => m.id == n.id) = true :=
    List.any_eq_true.2 ⟨n, hmem, by simp⟩
  refine ⟨{ db with notes := db.notes.map fun m =>
      if m.id == n.id then applyUpdates m (NotesHandlers.handlerUpdates args now) else m },
    ?_, rfl, rfl, ?_⟩
  · simp [NotesHandlers.updateNote, h, DB.updateNote, hsucc]
  · rfl

/-- Witness for `updateNote_partial_frame`: updating only the content
of note "A" leaves its folder, priority, dueDate and tag untouched and
stamps the new updatedAt. -/
theorem updateNote_partial_frame_witness :
    ∃ db', NotesHandlers.updateNote c9db ⟨"A", some "new content", none, none, none⟩ "t2"
        = .ok db' ∧
      db'.tags = c9db.tags ∧ db'.folders = c9db.folders ∧
      db'.notes = c9db.notes.map fun m =>
        if m.id == (1 : Nat) then
          { m with
            content := (some "new content").getD m.content
            folder := match (none : Option String) with | some f => some f | none => m.folder
            priority := match (none : Option Priority) with | some p => some p | none => m.priority
            dueDate := match (none : Option String) with | some d => some d | none => m.dueDate
            updatedAt := "t2" }
        else m :=
  updateNote_partial_frame c9db ⟨"A", some "new content", none, none, none⟩ "t2"
    ⟨1, "A", "c", some "home", some .low, some "2024-06-01", "t1", "t1"⟩ ["x"]
    (by decide)

/-- Claim C8, refuted at a concrete input: a creation payload with a
fresh title but absent optional fields (exactly what
`create_note {title, content}` produces) does not create a note — the
handler binds `undefined` for `@folder`/`@priority`/`@dueDate`,
better-sqlite3 throws before the INSERT, nothing is inserted, and the
fetch-back by title finds nothing. -/
theorem createNote_absent_fields_roundtrip_fails :
    (DB.empty.createNote ⟨"Fresh", "c", none, none, none, "t0", "t0"⟩).1
      = .error .bindError ∧
    (DB.empty.createNote ⟨"Fresh", "c", none, none, none, "t0", "t0"⟩).2.getNoteByTitle
      "Fresh" = none := by
  refine ⟨by decide, by decide⟩

/-- Claim C8 as amended: creating a note with a fresh title from a
payload whose optional folder, priority and dueDate are all supplied
(so every named parameter binds) succeeds with exactly the supplied
field values plus the generated id, and fetching it back by that title
returns that same note with an empty tag list.  The last hypothesis —
no tag row already carries the about-to-be-generated id — holds in
every reachable store. -/
theorem createNote_getNoteByTitle_roundtrip (db : DB) (f : NoteFields)
    (hbind : (f.folder.isNone || f.priority.isNone || f.dueDate.isNone) = false)
    (hfresh : ∀ n ∈ db.notes, n.title ≠ f.title)
    (hfreshTag : ∀ t ∈ db.tags, t.noteId ≠ db.nextNoteId) :
    (db.createNote f).1 = .ok ⟨db.nextNoteId, f.title, f.content, f.folder,
        f.priority, f.dueDate, f.createdAt, f.updatedAt⟩ ∧
    (db.createNote f).2.getNoteByTitle f.title
      = some (⟨db.nextNoteId, f.title, f.content, f.folder, f.priority, f.dueDate,
               f.createdAt, f.updatedAt⟩, []) := by
  have hdup : (db.notes.any fun n => n.title == f.title) = false := by
    simp only [List.any_eq_false]
    intro n hn
    simp [hfresh n hn]
  constructor
  · simp [DB.createNote, hbind, hdup]
  · simp only [DB.createNote, hbind, hdup, Bool.false_eq_true, if_false]
    unfold DB.getNoteByTitle
    rw [List.find?_append,
      List.find?_eq_none.2 (fun n hn => by simp [hfresh n hn])]
    have h2 : (db.tags.filter fun t => t.noteId == db.nextNoteId) = [] :=
      List.filter_eq_nil_iff.2 (fun t ht => by simp [hfreshTag t ht])
    simp [List.find?, DB.getNoteTags, h2]

/-- Witness for `createNote_getNoteByTitle_roundtrip`: creating
"Groceries" in the two-note store and reading it back by title. -/
theorem createNote_getNoteByTitle_roundtrip_witness :
    (sortDB.createNote ⟨"Groceries", "buy milk", some "home", some .high,
        some "2024-02-01", "t3", "t3"⟩).1
      = .ok ⟨3, "Groceries", "buy milk", some "home", some .high,
             some "2024-02-01", "t3", "t3"⟩ ∧
    (sortDB.createNote ⟨"Groceries", "buy milk", some "home", some .high,
        some "2024-02-01", "t3", "t3"⟩).2.getNoteByTitle "Groceries"
      = some (⟨3, "Groceries", "buy milk", some "home", some .high,
               some "2024-02-01", "t3", "t3"⟩, []) :=
  createNote_getNoteByTitle_roundtrip sortDB
    ⟨"Groceries", "buy milk", some "home", some .high, some "2024-02-01", "t3", "t3"⟩
    (by decide) (by decide) (by decide)

/-- Every left-join row produced for a note carries that note. -/
theorem rowsFor_fst (db : DB) (a : Note) : ∀ r ∈ db.rowsFor a, r.1 = a := by
  intro r hr
  unfold DB.rowsFor at hr
  cases hts : db.tags.filter (fun t => t.noteId == a.id) with
  | nil =>
    rw [hts] at hr
    simp only [List.mem_singleton] at hr
    rw [hr]
  | cons t rest =>
    rw [hts] at hr
    obtain ⟨t', _, rfl⟩ := List.mem_map.1 hr
    rfl

/-- A LEFT JOIN never drops a note: each note yields at least one row. -/
theorem exists_mem_rowsFor (db : DB) (a : Note) : ∃ r ∈ db.rowsFor a, r.1 = a := by
  unfold DB.rowsFor
  cases hts : db.tags.filter (fun t => t.noteId == a.id) with
  | nil => exact ⟨(a, none), by simp, rfl⟩
  | cons t rest => exact ⟨(a, some t), List.mem_map_of_mem _ (by simp), rfl⟩

/-- Each tag row of a note produces a join row for that note. -/
theorem mem_rowsFor_of_tag (db : DB) (a : Note) (t : Tag)
    (ht : t ∈ db.tags) (hid : t.noteId = a.id) : (a, some t) ∈ db.rowsFor a := by
  have htf : t ∈ db.tags.filter (fun x => x.noteId == a.id) :=
    List.mem_filter.2 ⟨ht, by simp [hid]⟩
  unfold DB.rowsFor
  cases hts : db.tags.filter (fun x => x.noteId == a.id) with
  | nil => rw [hts] at htf; cases htf
  | cons x xs => rw [hts] at htf; exact List.mem_map_of_mem _ htf

/-- The notes underlying the FROM-clause rows are exactly the stored
notes, join or no join. -/
theorem fst_mem_fromRows (db : DB) (opts : SearchOptions) (n : Note) :
    (∃ r ∈ db.fromRows opts, r.1 = n) ↔ n ∈ db.notes := by
  unfold DB.fromRows
  by_cases hj : joinTags opts = true
  · rw [hj]
    simp only [if_true]
    constructor
    · rintro ⟨r, hr, rfl⟩
      obtain ⟨a, ha, hra⟩ := List.mem_flatMap.1 hr
      rw [rowsFor_fst db a r hra]
      exact ha
    · intro hn
      obtain ⟨r, hr, hfst⟩ := exists_mem_rowsFor db n
      exact ⟨r, List.mem_flatMap.2 ⟨n, hn, hr⟩, hfst⟩
  · have hj' : joinTags opts = false := by simpa using hj
    rw [hj']
    simp only [Bool.false_eq_true, if_false]
    constructor
    · rintro ⟨r, hr, rfl⟩
      obtain ⟨a, ha, rfl⟩ := List.mem_map.1 hr
      exact ha
    · intro hn
      exact ⟨(n, none), List.mem_map_of_mem _ hn, rfl⟩

/-- Claim C3: when the requested fields include `tags`, a note matched
through the tag join occurs exactly once in the deduplicated sorted
sequence `l` — however many of its tag rows satisfy the predicate — and
the limit/offset window is carved out of `l` afterwards. -/
theorem searchNotes_tag_join_dedup (db : DB) (opts : SearchOptions) (n : Note) (t : Tag)
    (hn : n ∈ db.notes) (ht : t ∈ db.tags) (hid : t.noteId = n.id)
    (hjoin : joinTags opts = true)
    (hrow : rowWhere opts (n, some t) = true) :
    ∃ l, db.searchCore opts = .ok l ∧ List.count n l = 1 ∧
      db.searchNotes opts = .ok (db.hydrate (paginate opts.limit opts.offset l)) := by
  have hq_or : (opts.query == "") = true ∨
      ((textFields opts).any fun fl => fieldMatches opts.query fl (n, some t)) = true := by
    by_cases hq : (opts.query == "") = true
    · exact .inl hq
    · have hq' : (opts.query == "") = false := by simpa using hq
      unfold rowWhere at hrow
      rw [hq'] at hrow
      simp only [Bool.false_eq_true, if_false, Bool.and_eq_true] at hrow
      exact .inr hrow.1
  have herr : (!(opts.query == "") && (textFields opts).isEmpty) = false := by
    rcases hq_or with hq | hany
    · simp [hq]
    · obtain ⟨fl, hfl, _⟩ := List.any_eq_true.1 hany
      cases hT : textFields opts with
      | nil => rw [hT] at hfl; cases hfl
      | cons a as => simp [hT]
  have hrowmem : (n, some t) ∈ db.fromRows opts := by
    unfold DB.fromRows
    rw [hjoin]
    simp only [if_true]
    exact List.mem_flatMap.2 ⟨n, hn, mem_rowsFor_of_tag db n t ht hid⟩
  have hmemL : n ∈ ((db.fromRows opts).filter (rowWhere opts)).map Prod.fst :=
    List.mem_map.2 ⟨(n, some t), List.mem_filter.2 ⟨hrowmem, hrow⟩, rfl⟩
  have hcore : db.searchCore opts = .ok (List.insertionSort updatedAtDesc
      (((db.fromRows opts).filter (rowWhere opts)).map Prod.fst).dedup) := by
    unfold DB.searchCore
    rw [herr]
    simp
  refine ⟨_, hcore, ?_, ?_⟩
  · rw [(List.perm_insertionSort updatedAtDesc _).count_eq]
    exact List.count_eq_one_of_mem (List.nodup_dedup _) (List.mem_dedup.2 hmemL)
  · simp [DB.searchNotes, hcore, Except.map]

/-- The search used by the C3 witness: query "x" over the tag field. -/
def c3opts : SearchOptions := { query := "x", searchIn := some [.tags] }

/-- Witness for `searchNotes_tag_join_dedup` on the store whose note
"A" carries the matching tag "x". -/
theorem searchNotes_tag_join_dedup_witness :
    ∃ l, c9db.searchCore c3opts = .ok l ∧
      List.count (⟨1, "A", "c", some "home", some .low, some "2024-06-01",
        "t1", "t1"⟩ : Note) l = 1 ∧
      c9db.searchNotes c3opts
        = .ok (c9db.hydrate (paginate c3opts.limit c3opts.offset l)) :=
  searchNotes_tag_join_dedup c9db c3opts
    ⟨1, "A", "c", some "home", some .low, some "2024-06-01", "t1", "t1"⟩
    ⟨1, "x", 1⟩ (by decide) (by decide) (by decide) (by decide) (by decide)

/-- Claim C5: with an empty query no text predicate is applied at all —
membership in the pre-pagination sequence is decided solely by the
folder and priority equality filters — and the `getNotes` listing path
is exactly such a search. -/
theorem searchNotes_empty_query_no_text_predicate (db : DB) (opts : SearchOptions)
    (hq : opts.query = "") :
    ∃ l, db.searchCore opts = .ok l ∧
      (∀ n : Note, n ∈ l ↔ n ∈ db.notes ∧ folderPriorityCond opts n = true) ∧
      db.searchNotes opts = .ok (db.hydrate (paginate opts.limit opts.offset l)) ∧
      (∀ args : NotesHandlers.GetNotesArgs,
        NotesHandlers.getNotes db args = db.searchNotes
          { query := "", folder := args.folder,
            limit := args.limit, offset := args.offset }) := by
  have hqb : (opts.query == "") = true := by simp [hq]
  have herr : (!(opts.query == "") && (textFields opts).isEmpty) = false := by
    simp [hqb]
  have hrw : ∀ r : Note × Option Tag, rowWhere opts r = folderPriorityCond opts r.1 := by
    intro r
    unfold rowWhere
    rw [hqb]
    simp
  have hcore : db.searchCore opts = .ok (List.insertionSort updatedAtDesc
      (((db.fromRows opts).filter (rowWhere opts)).map Prod.fst).dedup) := by
    unfold DB.searchCore
    rw [herr]
    simp
  refine ⟨_, hcore, ?_, by simp [DB.searchNotes, hcore, Except.map], fun args => rfl⟩
  intro n
  rw [(List.perm_insertionSort updatedAtDesc _).mem_iff, List.mem_dedup]
  constructor
  · intro hmem
    obtain ⟨r, hr, rfl⟩ := List.mem_map.1 hmem
    have hrf := List.mem_filter.1 hr
    refine ⟨(fst_mem_fromRows db opts r.1).1 ⟨r, hrf.1, rfl⟩, ?_⟩
    rw [← hrw r]
    exact hrf.2
  · rintro ⟨hn, hcond⟩
    obtain ⟨r, hr, hfst⟩ := (fst_mem_fromRows db opts n).2 hn
    refine List.mem_map.2 ⟨r, List.mem_filter.2 ⟨hr, ?_⟩, hfst⟩
    rw [hrw r, hfst]
    exact hcond

/-- Witness for `searchNotes_empty_query_no_text_predicate`: listing the
"home" folder of the one-note store with an empty query. -/
theorem searchNotes_empty_query_no_text_predicate_witness :
    ∃ l, c9db.searchCore { query := "", folder := some "home" } = .ok l ∧
      (∀ n : Note, n ∈ l ↔ n ∈ c9db.notes ∧
        folderPriorityCond { query := "", folder := some "home" } n = true) ∧
      c9db.searchNotes { query := "", folder := some "home" }
        = .ok (c9db.hydrate (paginate none none l)) ∧
      (∀ args : NotesHandlers.GetNotesArgs,
        NotesHandlers.getNotes c9db args = c9db.searchNotes
          { query := "", folder := args.folder,
            limit := args.limit, offset := args.offset }) :=
  searchNotes_empty_query_no_text_predicate c9db
    { query := "", folder := some "home" } rfl

end McpNotes
